import Mathlib

/-!
Verification of the gesture-particles repository.

Shallow embedding of the two numeric cores:
* `HandTracker.calculateHandOpenness` (src/HandTracker.js), including the
  JavaScript semantics of division by zero (NaN / Infinity) and of property
  access on `undefined` array slots (a thrown TypeError, modelled by `Except`);
* `ParticleSystem` (src/ParticleSystem.js): the mutable field state, the
  setters `setPattern` / `setExpansion` / `setRotation` / `setColor`, the
  pattern generator `generateTargetPositions` (randomness is an explicit
  stream of `Math.random()` outcomes), and one iteration of the `animate`
  loop body (one simulation step).
-/

namespace GestureParticles

/-- A 3D point with real coordinates (a MediaPipe landmark `{x, y, z}` or a
particle position). -/
structure Point where
  x : ℝ
  y : ℝ
  z : ℝ

/-- The value of a JavaScript numeric expression: an ordinary (finite) double,
`Infinity`, `-Infinity`, or `NaN`.  Used where the source can divide by zero. -/
inductive JSVal where
  | finite : ℝ → JSVal
  | posInf : JSVal
  | negInf : JSVal
  | nan : JSVal

/-- JavaScript division `a / b` of two finite numbers: `0/0 = NaN`,
`a/0 = ±Infinity` for `a ≠ 0`, ordinary division otherwise. -/
noncomputable def jsDiv (a b : ℝ) : JSVal :=
  if b = 0 then
    if a = 0 then JSVal.nan
    else if 0 < a then JSVal.posInf
    else JSVal.negInf
  else JSVal.finite (a / b)

/-- JavaScript subtraction `v - c` of a possibly non-finite value and a finite
constant: infinities absorb, NaN propagates. -/
noncomputable def jsSubF (v : JSVal) (c : ℝ) : JSVal :=
  match v with
  | JSVal.finite a => JSVal.finite (a - c)
  | JSVal.posInf => JSVal.posInf
  | JSVal.negInf => JSVal.negInf
  | JSVal.nan => JSVal.nan

/-- JavaScript division `v / c` of a possibly non-finite value by a finite
nonzero constant (in the source, `c = 2.2 - 0.8`): infinities keep or flip
sign, NaN propagates. -/
noncomputable def jsDivF (v : JSVal) (c : ℝ) : JSVal :=
  match v with
  | JSVal.finite a => JSVal.finite (a / c)
  | JSVal.posInf => if 0 < c then JSVal.posInf else JSVal.negInf
  | JSVal.negInf => if 0 < c then JSVal.negInf else JSVal.posInf
  | JSVal.nan => JSVal.nan

/-- JavaScript `Math.min(a, v)` with `a` a finite constant: NaN if `v` is NaN. -/
noncomputable def jsMin (a : ℝ) (v : JSVal) : JSVal :=
  match v with
  | JSVal.finite b => JSVal.finite (min a b)
  | JSVal.posInf => JSVal.finite a
  | JSVal.negInf => JSVal.negInf
  | JSVal.nan => JSVal.nan

/-- JavaScript `Math.max(a, v)` with `a` a finite constant: NaN if `v` is NaN. -/
noncomputable def jsMax (a : ℝ) (v : JSVal) : JSVal :=
  match v with
  | JSVal.finite b => JSVal.finite (max a b)
  | JSVal.posInf => JSVal.posInf
  | JSVal.negInf => JSVal.finite a
  | JSVal.nan => JSVal.nan

/-- `Math.sqrt(Math.pow(b.x-a.x,2) + Math.pow(b.y-a.y,2) + Math.pow(b.z-a.z,2))`:
the 3D Euclidean distance used twice in `calculateHandOpenness`. -/
noncomputable def dist3 (a b : Point) : ℝ :=
  Real.sqrt ((b.x - a.x) ^ 2 + (b.y - a.y) ^ 2 + (b.z - a.z) ^ 2)

/-- `HandTracker.calculateHandOpenness(landmarks)` (src/HandTracker.js:143-189).

`landmarks[i]` on a too-short array yields `undefined`, and the subsequent
property access (`p9.x`, `tip.x`) throws a TypeError; this is the
`Except.error` case.  Otherwise the source computes
`palmSize` = distance(landmarks[0], landmarks[9]),
`avgTipDist` = mean distance from the wrist to the five tips (indices
4, 8, 12, 16, 20 — the `tips.forEach` loop is unrolled here),
`currentRatio = avgTipDist / palmSize` (JavaScript division: NaN/Infinity
when `palmSize` is 0), `normalized = (currentRatio - 0.8) / (2.2 - 0.8)`,
and returns `Math.max(0, Math.min(1, normalized))`. -/
noncomputable def calculateHandOpenness (landmarks : List Point) :
    Except Unit JSVal :=
  match landmarks.get? 0, landmarks.get? 9 with
  | some p0, some p9 =>
    match landmarks.get? 4, landmarks.get? 8, landmarks.get? 12,
          landmarks.get? 16, landmarks.get? 20 with
    | some t4, some t8, some t12, some t16, some t20 =>
      Except.ok (jsMax 0 (jsMin 1 (jsDivF (jsSubF
        (jsDiv ((dist3 p0 t4 + dist3 p0 t8 + dist3 p0 t12 + dist3 p0 t16 +
                 dist3 p0 t20) / 5)
               (dist3 p0 p9)) 0.8) (2.2 - 0.8))))
    | _, _, _, _, _ => Except.error ()
  | _, _ => Except.error ()

/-- `l[i]` read with a default (used only under a length hypothesis that makes
the default irrelevant). -/
def nth (l : List Point) (i : ℕ) : Point :=
  (l.get? i).getD ⟨0, 0, 0⟩

/-- The palm-size subexpression of the source: distance from the wrist
(landmark 0) to the middle-finger base (landmark 9). -/
noncomputable def palmSizeOf (l : List Point) : ℝ :=
  dist3 (nth l 0) (nth l 9)

/-- The average-tip-distance subexpression of the source: mean distance from
the wrist to the five fingertips (landmarks 4, 8, 12, 16, 20). -/
noncomputable def avgTipDistOf (l : List Point) : ℝ :=
  (dist3 (nth l 0) (nth l 4) + dist3 (nth l 0) (nth l 8) +
   dist3 (nth l 0) (nth l 12) + dist3 (nth l 0) (nth l 16) +
   dist3 (nth l 0) (nth l 20)) / 5

/-- The `currentRatio` subexpression of the source, `avgTipDist / palmSize`
(meaningful when the palm size is nonzero). -/
noncomputable def ratioOf (l : List Point) : ℝ :=
  avgTipDistOf l / palmSizeOf l

/-- The spec's normalisation formula: `(ratio - 0.8) / (2.2 - 0.8)` clamped
to `[0, 1]`. -/
noncomputable def opennessFormula (r : ℝ) : ℝ :=
  max 0 (min 1 ((r - 0.8) / (2.2 - 0.8)))

/-! ## ParticleSystem (src/ParticleSystem.js) -/

/-- The mutable fields of a `ParticleSystem` instance that the simulation
reads or writes (rendering-only fields such as the camera are omitted).
`originalPositions` holds one *target* entry per particle; a `none`
coordinate-triple models the `{x: undefined, y: undefined, z: undefined}`
object pushed by `generateTargetPositions` for an unknown pattern name.
`positions` is the per-particle current-position buffer; `none` models a
particle whose coordinates have become NaN.  `rotationY` is
`particles.rotation.y`. -/
structure PSState where
  particleCount : ℕ
  originalPositions : List (Option Point)
  currentPattern : String
  baseColor : ℕ
  expansion : ℝ
  targetExpansion : ℝ
  targetRotationY : ℝ
  rotationY : ℝ
  positions : List (Option Point)

/-- One loop iteration of `generateTargetPositions` for `pattern === 'sphere'`:
`theta = u1 * PI * 2` (for `u1 = Math.random()`),
`phi = acos(u2 * 2 - 1)`, `r = 10`, point
`(r sin φ cos θ, r sin φ sin θ, r cos φ)`. -/
noncomputable def spherePoint (u1 u2 : ℝ) : Point :=
  { x := 10 * Real.sin (Real.arccos (u2 * 2 - 1)) * Real.cos (u1 * Real.pi * 2)
  , y := 10 * Real.sin (Real.arccos (u2 * 2 - 1)) * Real.sin (u1 * Real.pi * 2)
  , z := 10 * Real.cos (Real.arccos (u2 * 2 - 1)) }

/-- One loop iteration for `pattern === 'cube'`: each coordinate is
`(Math.random() - 0.5) * 12`. -/
noncomputable def cubePoint (u1 u2 u3 : ℝ) : Point :=
  { x := (u1 - 0.5) * 12, y := (u2 - 0.5) * 12, z := (u3 - 0.5) * 12 }

/-- One loop iteration for `pattern === 'heart'`: `t = u1 * PI * 2`,
`scale = 0.5`, `x = scale * 16 * sin(t)^3`,
`y = scale * (13 cos t - 5 cos 2t - 2 cos 3t - cos 4t)`,
`z = (u2 - 0.5) * 5`. -/
noncomputable def heartPoint (u1 u2 : ℝ) : Point :=
  { x := 0.5 * 16 * Real.sin (u1 * Real.pi * 2) ^ 3
  , y := 0.5 * (13 * Real.cos (u1 * Real.pi * 2) -
                5 * Real.cos (2 * (u1 * Real.pi * 2)) -
                2 * Real.cos (3 * (u1 * Real.pi * 2)) -
                Real.cos (4 * (u1 * Real.pi * 2)))
  , z := (u2 - 0.5) * 5 }

/-- The body of the `generateTargetPositions` loop for particle `i`.
`rng` is the stream of successive `Math.random()` outcomes; a sphere/heart
iteration consumes two draws, a cube iteration three.  For a pattern name
other than `sphere` / `cube` / `heart` no branch assigns `x, y, z`, so the
pushed object has undefined coordinates: `none`. -/
noncomputable def patternPoint (pattern : String) (rng : ℕ → ℝ) (i : ℕ) :
    Option Point :=
  if pattern = "sphere" then some (spherePoint (rng (2 * i)) (rng (2 * i + 1)))
  else if pattern = "cube" then
    some (cubePoint (rng (3 * i)) (rng (3 * i + 1)) (rng (3 * i + 2)))
  else if pattern = "heart" then
    some (heartPoint (rng (2 * i)) (rng (2 * i + 1)))
  else none

/-- `generateTargetPositions(pattern)` (src/ParticleSystem.js:91-128): resets
`originalPositions` to `[]` and pushes one `{x, y, z}` per particle index
`i < particleCount`. -/
noncomputable def generateTargetPositions (pattern : String) (rng : ℕ → ℝ)
    (particleCount : ℕ) : List (Option Point) :=
  (List.range particleCount).map (patternPoint pattern rng)

/-- `setPattern(patternName)` (src/ParticleSystem.js:130-134): stores the name
in `currentPattern`, then regenerates all target positions. -/
noncomputable def setPattern (patternName : String) (rng : ℕ → ℝ)
    (s : PSState) : PSState :=
  { s with currentPattern := patternName
         , originalPositions :=
             generateTargetPositions patternName rng s.particleCount }

/-- `setExpansion(factor)` (src/ParticleSystem.js:146-149): writes the
*target* expansion only. -/
def setExpansion (factor : ℝ) (s : PSState) : PSState :=
  { s with targetExpansion := factor }

/-- `setRotation(angle)` (src/ParticleSystem.js:152-154). -/
def setRotation (angle : ℝ) (s : PSState) : PSState :=
  { s with targetRotationY := angle }

/-- `setColor(hexColor)` (src/ParticleSystem.js:137-142): display colour only. -/
def setColor (c : ℕ) (s : PSState) : PSState :=
  { s with baseColor := c }

/-- One iteration of the inner particle loop of `animate`
(src/ParticleSystem.js:180-203): `target = originalPositions[i]`;
`if (!target) continue` (the `none` first argument); otherwise
`position += (target * expansion - position) * 0.1` per axis.  A target with
undefined coordinates turns the position into NaN (`none`), and a NaN
position stays NaN. -/
noncomputable def moveParticle (expansion : ℝ) (target : Option (Option Point))
    (current : Option Point) : Option Point :=
  match target with
  | none => current
  | some none => none
  | some (some t) =>
    match current with
    | none => none
    | some c =>
      some { x := c.x + (t.x * expansion - c.x) * 0.1
           , y := c.y + (t.y * expansion - c.y) * 0.1
           , z := c.z + (t.z * expansion - c.z) * 0.1 }

/-- One simulation step: the body of `animate` (src/ParticleSystem.js:157-208)
minus the re-scheduling and rendering calls.  First the expansion is smoothed
(`expansion += (targetExpansion - expansion) * 0.1`), then the mesh rotation
(`rotation.y += (targetRotationY - rotation.y) * 0.1`), then every particle
position moves 10% of the way toward its scaled target, using the *updated*
expansion. -/
noncomputable def animate (s : PSState) : PSState :=
  let expansion := s.expansion + (s.targetExpansion - s.expansion) * 0.1
  let rotationY := s.rotationY + (s.targetRotationY - s.rotationY) * 0.1
  { s with expansion := expansion
         , rotationY := rotationY
         , positions := s.positions.enum.map fun p =>
             moveParticle expansion (s.originalPositions.get? p.1) p.2 }

/-- A concrete two-particle system state (pattern `sphere`, two live targets),
used as the base state for concrete evaluations. -/
noncomputable def demoState : PSState :=
  { particleCount := 2
  , originalPositions := [some ⟨1, 0, 0⟩, some ⟨0, 1, 0⟩]
  , currentPattern := "sphere"
  , baseColor := 65535
  , expansion := 1
  , targetExpansion := 1
  , targetRotationY := 0
  , rotationY := 0
  , positions := [some ⟨0, 0, 0⟩, some ⟨0, 0, 0⟩] }

/-- A concrete 21-landmark hand: the wrist at the origin, every other
landmark at `(1, 0, 0)`.  Palm size 1, every tip distance 1. -/
noncomputable def demoHand : List Point :=
  [⟨0, 0, 0⟩, ⟨1, 0, 0⟩, ⟨1, 0, 0⟩, ⟨1, 0, 0⟩, ⟨1, 0, 0⟩, ⟨1, 0, 0⟩,
   ⟨1, 0, 0⟩, ⟨1, 0, 0⟩, ⟨1, 0, 0⟩, ⟨1, 0, 0⟩, ⟨1, 0, 0⟩, ⟨1, 0, 0⟩,
   ⟨1, 0, 0⟩, ⟨1, 0, 0⟩, ⟨1, 0, 0⟩, ⟨1, 0, 0⟩, ⟨1, 0, 0⟩, ⟨1, 0, 0⟩,
   ⟨1, 0, 0⟩, ⟨1, 0, 0⟩, ⟨1, 0, 0⟩]

/-- Translation of a landmark by a fixed vector `v`. -/
def translateBy (v p : Point) : Point :=
  ⟨p.x + v.x, p.y + v.y, p.z + v.z⟩

/-- Scaling of a landmark's offset from a centre `p0` by a factor `c`. -/
def scaleAbout (p0 : Point) (c : ℝ) (p : Point) : Point :=
  ⟨p0.x + c * (p.x - p0.x), p0.y + c * (p.y - p0.y), p0.z + c * (p.z - p0.z)⟩

/-! ## Helper lemmas -/

theorem get?_eq_some_nth (l : List Point) (i : ℕ) (h : i < l.length) :
    l.get? i = some (nth l i) := by
  cases h' : l.get? i with
  | none => exact absurd (List.get?_eq_none.mp h') (by omega)
  | some a => simp only [nth, h', Option.getD_some]

theorem palmSizeOf_ne_zero {l : List Point} (h : 0 < palmSizeOf l) :
    dist3 (nth l 0) (nth l 9) ≠ 0 := by
  simpa [palmSizeOf] using ne_of_gt h

/-- With all seven required landmarks present and a nonzero palm size,
`calculateHandOpenness` evaluates to the clamped normalised ratio. -/
theorem openness_eval (l : List Point) (hlen : 21 ≤ l.length)
    (hpalm : 0 < palmSizeOf l) :
    calculateHandOpenness l =
      Except.ok (JSVal.finite (opennessFormula (ratioOf l))) := by
  have h0 := get?_eq_some_nth l 0 (by omega)
  have h4 := get?_eq_some_nth l 4 (by omega)
  have h8 := get?_eq_some_nth l 8 (by omega)
  have h9 := get?_eq_some_nth l 9 (by omega)
  have h12 := get?_eq_some_nth l 12 (by omega)
  have h16 := get?_eq_some_nth l 16 (by omega)
  have h20 := get?_eq_some_nth l 20 (by omega)
  have hne := palmSizeOf_ne_zero hpalm
  simp only [calculateHandOpenness, h0, h4, h8, h9, h12, h16, h20, jsDiv,
    if_neg hne, jsSubF, jsDivF, jsMin, jsMax, opennessFormula, ratioOf,
    avgTipDistOf, palmSizeOf]

theorem dist3_translateBy (v a b : Point) :
    dist3 (translateBy v a) (translateBy v b) = dist3 a b := by
  simp only [dist3, translateBy]
  congr 1
  ring

theorem dist3_scaleAbout (p0 : Point) (c : ℝ) (hc : 0 ≤ c) (a b : Point) :
    dist3 (scaleAbout p0 c a) (scaleAbout p0 c b) = c * dist3 a b := by
  simp only [dist3, scaleAbout]
  have h : p0.x + c * (b.x - p0.x) - (p0.x + c * (a.x - p0.x)) = c * (b.x - a.x) := by ring
  have h2 : p0.y + c * (b.y - p0.y) - (p0.y + c * (a.y - p0.y)) = c * (b.y - a.y) := by ring
  have h3 : p0.z + c * (b.z - p0.z) - (p0.z + c * (a.z - p0.z)) = c * (b.z - a.z) := by ring
  rw [h, h2, h3, show (c * (b.x - a.x)) ^ 2 + (c * (b.y - a.y)) ^ 2 +
      (c * (b.z - a.z)) ^ 2 =
      c ^ 2 * ((b.x - a.x) ^ 2 + (b.y - a.y) ^ 2 + (b.z - a.z) ^ 2) by ring,
    Real.sqrt_mul (sq_nonneg c), Real.sqrt_sq hc]

theorem nth_map (f : Point → Point) (l : List Point) (i : ℕ)
    (h : i < l.length) : nth (l.map f) i = f (nth l i) := by
  have hm : (l.map f).get? i = (l.get? i).map f := List.get?_map f l i
  rw [nth, hm, get?_eq_some_nth l i h]
  rfl

/-- Every sphere sample has squared norm exactly 100. -/
theorem spherePoint_sq_norm (u1 u2 : ℝ) :
    (spherePoint u1 u2).x ^ 2 + (spherePoint u1 u2).y ^ 2 +
      (spherePoint u1 u2).z ^ 2 = 100 := by
  simp only [spherePoint]
  have h1 := Real.sin_sq_add_cos_sq (u1 * Real.pi * 2)
  have h2 := Real.sin_sq_add_cos_sq (Real.arccos (u2 * 2 - 1))
  linear_combination (100 * Real.sin (Real.arccos (u2 * 2 - 1)) ^ 2) * h1 + 100 * h2

theorem animate_expansion (s : PSState) :
    (animate s).expansion = s.expansion + (s.targetExpansion - s.expansion) * 0.1 :=
  rfl

theorem animate_targetExpansion (s : PSState) :
    (animate s).targetExpansion = s.targetExpansion :=
  rfl

theorem demoHand_length : demoHand.length = 21 := rfl

theorem demoHand_palm_pos : 0 < palmSizeOf demoHand := by
  have h : palmSizeOf demoHand = dist3 ⟨0, 0, 0⟩ ⟨1, 0, 0⟩ := rfl
  rw [h, dist3, Real.sqrt_pos]
  norm_num

/-! ## Claim theorems -/

/-- C8: `setExpansion(x)` stores exactly `x` in the target expansion and
leaves the current (smoothed) expansion unchanged; only later `step()` calls
move the current value. -/
theorem setExpansion_roundtrip (s : PSState) (x : ℝ) :
    (setExpansion x s).targetExpansion = x ∧
    (setExpansion x s).expansion = s.expansion :=
  ⟨rfl, rfl⟩

/-- C10: one `animate` step leaves the target expansion, the target rotation,
the active pattern name, the pattern target positions, the base colour and
the particle count unchanged — it mutates only the current expansion, the
mesh rotation and the position buffer. -/
theorem animate_preserves_controls (s : PSState) :
    (animate s).targetExpansion = s.targetExpansion ∧
    (animate s).targetRotationY = s.targetRotationY ∧
    (animate s).currentPattern = s.currentPattern ∧
    (animate s).originalPositions = s.originalPositions ∧
    (animate s).baseColor = s.baseColor ∧
    (animate s).particleCount = s.particleCount :=
  ⟨rfl, rfl, rfl, rfl, rfl, rfl⟩

/-- C6: after `setExpansion x`, the target expansion stays `x` across steps
and the gap between target and current expansion after `k` steps is exactly
`0.9 ^ k` times the initial gap. -/
theorem expansion_gap_geometric (s : PSState) (x : ℝ) (k : ℕ) :
    (animate^[k] (setExpansion x s)).targetExpansion = x ∧
    x - (animate^[k] (setExpansion x s)).expansion =
      0.9 ^ k * (x - s.expansion) := by
  induction k with
  | zero => exact ⟨rfl, by simp [setExpansion]⟩
  | succ n ih =>
    obtain ⟨ht, he⟩ := ih
    rw [Function.iterate_succ_apply']
    refine ⟨by rw [animate_targetExpansion, ht], ?_⟩
    rw [animate_expansion, ht,
      show x - ((animate^[n] (setExpansion x s)).expansion +
          (x - (animate^[n] (setExpansion x s)).expansion) * 0.1) =
        (0.9 : ℝ) * (x - (animate^[n] (setExpansion x s)).expansion) by ring,
      he]
    ring

/-- C2 (failing input): on a degenerate hand whose 21 landmarks all coincide,
`palmSize` is 0 and `calculateHandOpenness` neither throws nor returns a safe
default — it silently returns NaN (`0 / 0`). -/
theorem openness_zero_palm_nan :
    calculateHandOpenness (List.replicate 21 ⟨0, 0, 0⟩) =
      Except.ok JSVal.nan := by
  have h0 : (List.replicate 21 (⟨0, 0, 0⟩ : Point)).get? 0 = some ⟨0, 0, 0⟩ := rfl
  have h4 : (List.replicate 21 (⟨0, 0, 0⟩ : Point)).get? 4 = some ⟨0, 0, 0⟩ := rfl
  have h8 : (List.replicate 21 (⟨0, 0, 0⟩ : Point)).get? 8 = some ⟨0, 0, 0⟩ := rfl
  have h9 : (List.replicate 21 (⟨0, 0, 0⟩ : Point)).get? 9 = some ⟨0, 0, 0⟩ := rfl
  have h12 : (List.replicate 21 (⟨0, 0, 0⟩ : Point)).get? 12 = some ⟨0, 0, 0⟩ := rfl
  have h16 : (List.replicate 21 (⟨0, 0, 0⟩ : Point)).get? 16 = some ⟨0, 0, 0⟩ := rfl
  have h20 : (List.replicate 21 (⟨0, 0, 0⟩ : Point)).get? 20 = some ⟨0, 0, 0⟩ := rfl
  have hd : dist3 (⟨0, 0, 0⟩ : Point) ⟨0, 0, 0⟩ = 0 := by
    simp [dist3]
  simp only [calculateHandOpenness, h0, h4, h8, h9, h12, h16, h20, hd]
  norm_num [jsDiv, jsSubF, jsDivF, jsMin, jsMax]

/-- C9: with fewer than 10 landmarks, the middle-finger-base access
`landmarks[9].x` hits `undefined` and `calculateHandOpenness` throws instead
of returning a number. -/
theorem openness_short_input_throws (l : List Point) (h : l.length < 10) :
    calculateHandOpenness l = Except.error () := by
  have h9 : l.get? 9 = none := List.get?_eq_none.mpr (by omega)
  cases h0 : l.get? 0 with
  | none => simp only [calculateHandOpenness, h0, h9]
  | some p => simp only [calculateHandOpenness, h0, h9]

/-- Witness for C9 at the empty landmark list. -/
theorem openness_short_input_throws_witness :
    ([] : List Point).length < 10 ∧
    calculateHandOpenness [] = Except.error () :=
  ⟨by norm_num, openness_short_input_throws [] (by norm_num)⟩

/-- C1 (failing input): `setPattern` with the unknown name `"star"` is neither
a no-op nor an error: it silently installs `"star"` as the current pattern and
replaces both live targets with objects whose coordinates are all undefined. -/
theorem setPattern_unknown_silently_corrupts :
    (setPattern "star" (fun _ => 0) demoState).currentPattern = "star" ∧
    (setPattern "star" (fun _ => 0) demoState).originalPositions = [none, none] ∧
    demoState.originalPositions ≠ [none, none] ∧
    demoState.currentPattern ≠ "star" := by
  refine ⟨rfl, rfl, by simp [demoState], by simp [demoState]⟩

/-- C3: with all 21 landmarks present and a positive palm size,
`calculateHandOpenness` returns exactly the ratio `(avgTipDist/palmSize)`
normalised by `(r - 0.8) / (2.2 - 0.8)` and clamped to `[0, 1]`; the result is
in `[0, 1]`, and ratios 0.5, 3.0, 0.8, 2.2 give 0, 1, 0, 1 respectively. -/
theorem openness_clamped_formula (l : List Point) (hlen : 21 ≤ l.length)
    (hpalm : 0 < palmSizeOf l) :
    calculateHandOpenness l =
      Except.ok (JSVal.finite (opennessFormula (ratioOf l))) ∧
    0 ≤ opennessFormula (ratioOf l) ∧ opennessFormula (ratioOf l) ≤ 1 ∧
    (ratioOf l = 0.5 → opennessFormula (ratioOf l) = 0) ∧
    (ratioOf l = 3 → opennessFormula (ratioOf l) = 1) ∧
    (ratioOf l = 0.8 → opennessFormula (ratioOf l) = 0) ∧
    (ratioOf l = 2.2 → opennessFormula (ratioOf l) = 1) := by
  refine ⟨openness_eval l hlen hpalm, le_max_left _ _,
    max_le (by norm_num) (min_le_left _ _), ?_, ?_, ?_, ?_⟩ <;>
    intro h <;> rw [h] <;> norm_num [opennessFormula, min_def, max_def]

/-- Witness for C3 at the concrete hand `demoHand`. -/
theorem openness_clamped_formula_witness :
    (21 ≤ demoHand.length ∧ 0 < palmSizeOf demoHand) ∧
    (calculateHandOpenness demoHand =
      Except.ok (JSVal.finite (opennessFormula (ratioOf demoHand))) ∧
    0 ≤ opennessFormula (ratioOf demoHand) ∧
    opennessFormula (ratioOf demoHand) ≤ 1 ∧
    (ratioOf demoHand = 0.5 → opennessFormula (ratioOf demoHand) = 0) ∧
    (ratioOf demoHand = 3 → opennessFormula (ratioOf demoHand) = 1) ∧
    (ratioOf demoHand = 0.8 → opennessFormula (ratioOf demoHand) = 0) ∧
    (ratioOf demoHand = 2.2 → opennessFormula (ratioOf demoHand) = 1)) :=
  ⟨⟨by norm_num [demoHand_length], demoHand_palm_pos⟩,
    openness_clamped_formula demoHand (by norm_num [demoHand_length])
      demoHand_palm_pos⟩

/-- C4: the openness value is unchanged when all landmarks are translated by
a fixed vector `v`, and unchanged when every landmark's offset from the wrist
is scaled by a positive factor `c`. -/
theorem openness_translation_scale_invariant (l : List Point) (v : Point)
    (c : ℝ) (hlen : 21 ≤ l.length) (hpalm : 0 < palmSizeOf l) (hc : 0 < c) :
    calculateHandOpenness (l.map (translateBy v)) = calculateHandOpenness l ∧
    calculateHandOpenness (l.map (scaleAbout (nth l 0) c)) =
      calculateHandOpenness l := by
  have hpalmT : palmSizeOf (l.map (translateBy v)) = palmSizeOf l := by
    rw [palmSizeOf, nth_map _ l 0 (by omega), nth_map _ l 9 (by omega),
      dist3_translateBy, palmSizeOf]
  have havgT : avgTipDistOf (l.map (translateBy v)) = avgTipDistOf l := by
    rw [avgTipDistOf, nth_map _ l 0 (by omega), nth_map _ l 4 (by omega),
      nth_map _ l 8 (by omega), nth_map _ l 12 (by omega),
      nth_map _ l 16 (by omega), nth_map _ l 20 (by omega),
      dist3_translateBy, dist3_translateBy, dist3_translateBy,
      dist3_translateBy, dist3_translateBy, avgTipDistOf]
  have hratioT : ratioOf (l.map (translateBy v)) = ratioOf l := by
    rw [ratioOf, ratioOf, havgT, hpalmT]
  have hpalmS : palmSizeOf (l.map (scaleAbout (nth l 0) c)) =
      c * palmSizeOf l := by
    rw [palmSizeOf, nth_map _ l 0 (by omega), nth_map _ l 9 (by omega),
      dist3_scaleAbout _ _ hc.le, palmSizeOf]
  have havgS : avgTipDistOf (l.map (scaleAbout (nth l 0) c)) =
      c * avgTipDistOf l := by
    rw [avgTipDistOf, nth_map _ l 0 (by omega), nth_map _ l 4 (by omega),
      nth_map _ l 8 (by omega), nth_map _ l 12 (by omega),
      nth_map _ l 16 (by omega), nth_map _ l 20 (by omega),
      dist3_scaleAbout _ _ hc.le, dist3_scaleAbout _ _ hc.le,
      dist3_scaleAbout _ _ hc.le, dist3_scaleAbout _ _ hc.le,
      dist3_scaleAbout _ _ hc.le, avgTipDistOf]
    ring
  have hratioS : ratioOf (l.map (scaleAbout (nth l 0) c)) = ratioOf l := by
    rw [ratioOf, ratioOf, havgS, hpalmS, mul_div_mul_left _ _ (ne_of_gt hc)]
  constructor
  · rw [openness_eval _ (by simpa using hlen) (by rw [hpalmT]; exact hpalm),
      openness_eval l hlen hpalm, hratioT]
  · rw [openness_eval _ (by simpa using hlen)
        (by rw [hpalmS]; exact mul_pos hc hpalm),
      openness_eval l hlen hpalm, hratioS]

/-- Witness for C4: `demoHand`, translation by `(1, 2, 3)`, scale factor 2. -/
theorem openness_translation_scale_invariant_witness :
    (21 ≤ demoHand.length ∧ 0 < palmSizeOf demoHand ∧ (0 : ℝ) < 2) ∧
    (calculateHandOpenness (demoHand.map (translateBy ⟨1, 2, 3⟩)) =
      calculateHandOpenness demoHand ∧
    calculateHandOpenness (demoHand.map (scaleAbout (nth demoHand 0) 2)) =
      calculateHandOpenness demoHand) :=
  ⟨⟨by norm_num [demoHand_length], demoHand_palm_pos, by norm_num⟩,
    openness_translation_scale_invariant demoHand ⟨1, 2, 3⟩ 2
      (by norm_num [demoHand_length]) demoHand_palm_pos (by norm_num)⟩

/-- C5: every target generated by `setPattern('sphere')` lies at Euclidean
distance exactly 10 from the origin, whatever the random draws were. -/
theorem sphere_targets_radius_ten (rng : ℕ → ℝ) (s : PSState)
    (op : Option Point)
    (hmem : op ∈ (setPattern "sphere" rng s).originalPositions) :
    ∃ p : Point, op = some p ∧
      Real.sqrt (p.x ^ 2 + p.y ^ 2 + p.z ^ 2) = 10 := by
  simp only [setPattern, generateTargetPositions, List.mem_map] at hmem
  obtain ⟨i, _, hi⟩ := hmem
  rw [show patternPoint "sphere" rng i =
      some (spherePoint (rng (2 * i)) (rng (2 * i + 1))) from rfl] at hi
  refine ⟨spherePoint (rng (2 * i)) (rng (2 * i + 1)), hi.symm, ?_⟩
  rw [spherePoint_sq_norm, show (100 : ℝ) = 10 ^ 2 by norm_num,
    Real.sqrt_sq (by norm_num : (0 : ℝ) ≤ 10)]

/-- Witness for C5: the first target of a concrete two-particle sphere
regeneration. -/
theorem sphere_targets_radius_ten_witness :
    patternPoint "sphere" (fun _ => 0) 0 ∈
      (setPattern "sphere" (fun _ => 0) demoState).originalPositions ∧
    ∃ p : Point, patternPoint "sphere" (fun _ => 0) 0 = some p ∧
      Real.sqrt (p.x ^ 2 + p.y ^ 2 + p.z ^ 2) = 10 := by
  have hm : patternPoint "sphere" (fun _ => 0) 0 ∈
      (setPattern "sphere" (fun _ => 0) demoState).originalPositions := by
    show patternPoint "sphere" (fun _ => 0) 0 ∈
      (List.range 2).map (patternPoint "sphere" (fun _ => 0))
    exact List.mem_map_of_mem _ (List.mem_range.mpr (by norm_num))
  exact ⟨hm, sphere_targets_radius_ten (fun _ => 0) demoState _ hm⟩

/-- For a known pattern name, the per-particle generator always assigns
coordinates. -/
theorem patternPoint_known_isSome (p : String) (rng : ℕ → ℝ) (i : ℕ)
    (hp : p = "sphere" ∨ p = "cube" ∨ p = "heart") :
    patternPoint p rng i ≠ none := by
  rcases hp with h | h | h <;> subst h <;> simp [patternPoint]

/-- C7: for a known pattern name, `setPattern` installs the name and replaces
the whole target set with exactly `particleCount` freshly generated points of
that pattern (entry `i` is the `i`-th fresh sample, and no entry is left
undefined); the step that follows reads exactly this regenerated set. -/
theorem setPattern_known_regenerates (p : String) (rng : ℕ → ℝ) (s : PSState)
    (hp : p = "sphere" ∨ p = "cube" ∨ p = "heart") :
    (setPattern p rng s).currentPattern = p ∧
    (setPattern p rng s).originalPositions.length = s.particleCount ∧
    (∀ i, i < s.particleCount →
      (setPattern p rng s).originalPositions.get? i =
        some (patternPoint p rng i)) ∧
    (∀ op ∈ (setPattern p rng s).originalPositions, op ≠ none) ∧
    (animate (setPattern p rng s)).originalPositions =
      generateTargetPositions p rng s.particleCount := by
  refine ⟨rfl, by simp [setPattern, generateTargetPositions], ?_, ?_, rfl⟩
  · intro i hi
    show ((List.range s.particleCount).map (patternPoint p rng)).get? i = _
    rw [List.get?_map, List.get?_range hi]
    rfl
  · intro op hop
    simp only [setPattern, generateTargetPositions, List.mem_map] at hop
    obtain ⟨i, _, hi⟩ := hop
    rw [← hi]
    exact patternPoint_known_isSome p rng i hp

/-- Witness for C7: regenerating the sphere pattern on the concrete
two-particle state. -/
theorem setPattern_known_regenerates_witness :
    ("sphere" = "sphere" ∨ "sphere" = "cube" ∨ "sphere" = "heart") ∧
    ((setPattern "sphere" (fun _ => 0) demoState).currentPattern = "sphere" ∧
    (setPattern "sphere" (fun _ => 0) demoState).originalPositions.length =
      demoState.particleCount ∧
    (∀ i, i < demoState.particleCount →
      (setPattern "sphere" (fun _ => 0) demoState).originalPositions.get? i =
        some (patternPoint "sphere" (fun _ => 0) i)) ∧
    (∀ op ∈ (setPattern "sphere" (fun _ => 0) demoState).originalPositions,
      op ≠ none) ∧
    (animate (setPattern "sphere" (fun _ => 0) demoState)).originalPositions =
      generateTargetPositions "sphere" (fun _ => 0) demoState.particleCount) :=
  ⟨Or.inl rfl,
    setPattern_known_regenerates "sphere" (fun _ => 0) demoState (Or.inl rfl)⟩

end GestureParticles
